import Mathlib

/-
Verification of the govctl power-governance daemon (govctl_service.py).
The Python source is shallowly embedded: each relevant function is
translated into a pure Lean definition; process globals become explicit
state passed in and out; filesystem and subprocess effects are
represented by their observable inputs (file contents, tool success) and
outputs (values written, commands built); Python float arithmetic on
battery percentages and TDP limits is modelled exactly over the
rationals, and Python int() truncation toward zero is modelled on those
rationals.
-/

namespace Govctl

/-! ## Power-mode state machine (govctl_service.py, main loop)

`powersave_point = max(min(current_config.get("powersave_point", 20), 80), 0)`
clamps the configured threshold; the global `powersave` flag starts
`False`; each cycle the mode branch compares the reading `st` with the
(clamped) threshold. -/

/-- Clamp of the configured powersave threshold, from
`max(min(value, 80), 0)` in `main`. -/
def clamp_psp (n : Int) : Int := max (min n 80) 0

/-- Initial value of the `powersave` global (`powersave = False`). -/
def initial_powersave : Bool := false

/-- One decision cycle of the mode flag: in Powersave the code stays in
Powersave iff `st < powersave_point + 10`; in Normal it switches to
Powersave iff not `st > powersave_point`. -/
def next_powersave (p : Int) (ps : Bool) (st : Int) : Bool :=
  if ps then decide (st < p + 10) else decide (st ≤ p)

/-- Iterated decision cycles over a sequence of readings. -/
def run_cycles (p : Int) (readings : List Int) (ps : Bool) : Bool :=
  readings.foldl (fun m r => next_powersave p m r) ps

/-- C1. The power-mode state machine is a two-state machine over
{Normal, Powersave} (here `false`/`true`) starting in Normal; for every
configured threshold clamped to [0,80], a Normal cycle switches to
Powersave exactly when the reading is ≤ the threshold, a Powersave cycle
switches to Normal exactly when the reading is ≥ threshold + 10, and
once in Powersave the machine stays in Powersave over any sequence of
readings that all stay below threshold + 10. -/
theorem C1_powersave_hysteresis :
    initial_powersave = false ∧
    ∀ rawp : Int,
      (0 ≤ clamp_psp rawp ∧ clamp_psp rawp ≤ 80) ∧
      (∀ st : Int, next_powersave (clamp_psp rawp) false st = true ↔ st ≤ clamp_psp rawp) ∧
      (∀ st : Int, next_powersave (clamp_psp rawp) true st = false ↔ clamp_psp rawp + 10 ≤ st) ∧
      (∀ readings : List Int, (∀ r ∈ readings, r < clamp_psp rawp + 10) →
        run_cycles (clamp_psp rawp) readings true = true) := by
  refine ⟨rfl, fun rawp => ⟨⟨le_max_right _ _, max_le (le_trans (min_le_right _ _) (by norm_num)) (by norm_num)⟩, ?_, ?_, ?_⟩⟩
  · intro st
    simp [next_powersave]
  · intro st
    simp [next_powersave]
  · intro readings h
    induction readings with
    | nil => rfl
    | cons r rs ih =>
        have hr : next_powersave (clamp_psp rawp) true r = true := by
          simp only [next_powersave, if_pos]
          exact decide_eq_true (h r (List.mem_cons_self r rs))
        show run_cycles (clamp_psp rawp) (r :: rs) true = true
        unfold run_cycles at ih ⊢
        rw [List.foldl_cons, hr]
        exact ih fun x hx => h x (List.mem_cons_of_mem _ hx)

/-- Witness for C1 at threshold 20 and readings [15, 25]: both readings
are below 30, and the machine stays in Powersave throughout. -/
theorem C1_powersave_hysteresis_witness :
    (∀ r ∈ ([15, 25] : List Int), r < clamp_psp 20 + 10) ∧
    run_cycles (clamp_psp 20) [15, 25] true = true :=
  ⟨by decide, ((C1_powersave_hysteresis.2 20).2.2.2) [15, 25] (by decide)⟩

/-! ## Battery aggregator (`status` / `fetch_prop`)

A power-supply device is its sysfs path together with the five
attributes the code fetches. `fetch_prop` returns the stripped file
text, or `""` when the attribute file is missing; the code then tests
Python string truthiness and applies `int(...)`. An attribute is
therefore modelled as: missing (empty string, falsy, never parsed
successfully), invalid (non-empty text on which `int()` raises), or an
integer value. -/

/-- Result of `fetch_prop` on one attribute, as consumed by `status`. -/
inductive Attr where
  | missing : Attr
  | invalid : Attr
  | val : Int → Attr
deriving DecidableEq

/-- One directory under `/sys/class/power_supply/` with the attributes
`status` reads. -/
structure Device where
  path : List Char
  energy_now : Attr
  energy_full : Attr
  charge_now : Attr
  charge_full : Attr
  online : Attr
deriving DecidableEq

/-- Device filter from `status`: keep the device when `"hidpp"` does not
occur in its path and the path does not start with
`/sys/class/power_supply/hid-`. -/
def eligible (d : Device) : Bool :=
  !(decide ("hidpp".toList <:+: d.path)) &&
  !(List.isPrefixOf "/sys/class/power_supply/hid-".toList d.path)

/-- Outcome of processing one device inside the loop of `status`:
an immediate `return 100` (truthy `online`), an updated percentage
candidate, or no change (exception caught, or no usable attribute
pair). -/
inductive DevResult where
  | ret : DevResult
  | reading : ℚ → DevResult
  | skip : DevResult
deriving DecidableEq

/-- Charge-based branch
`elif charge_full and int(charge_full): ... (1 - ((charge_full - charge_now) / charge_full)) * 100`.
A non-empty non-numeric `charge_full` or `charge_now` makes `int()`
raise, which the code catches (no update); a missing or zero
`charge_full` falls through with no update. -/
def charge_branch (d : Device) : DevResult :=
  match d.charge_full with
  | Attr.invalid => DevResult.skip
  | Attr.missing => DevResult.skip
  | Attr.val f =>
      if f = 0 then DevResult.skip
      else
        match d.charge_now with
        | Attr.val n => DevResult.reading ((1 - (((f : ℚ) - (n : ℚ)) / (f : ℚ))) * 100)
        | _ => DevResult.skip

/-- Energy-based branch
`elif energy_full and int(energy_full): ...`, preferred over the charge
branch; missing or zero `energy_full` falls through to the charge
branch. -/
def energy_branch (d : Device) : DevResult :=
  match d.energy_full with
  | Attr.invalid => DevResult.skip
  | Attr.missing => charge_branch d
  | Attr.val f =>
      if f = 0 then charge_branch d
      else
        match d.energy_now with
        | Attr.val n => DevResult.reading ((1 - (((f : ℚ) - (n : ℚ)) / (f : ℚ))) * 100)
        | _ => DevResult.skip

/-- Per-device body of the `status` loop: `if online and int(online):
return 100` first (an invalid `online` raises and the device is
skipped), then the energy branch, then the charge branch. -/
def procDevice (d : Device) : DevResult :=
  match d.online with
  | Attr.invalid => DevResult.skip
  | Attr.val n => if n = 0 then energy_branch d else DevResult.ret
  | Attr.missing => energy_branch d

/-- Python `int()` truncation toward zero of an exact rational. -/
def pyIntTrunc (q : ℚ) : Int := if q < 0 then -⌊-q⌋ else ⌊q⌋

/-- The loop of `status`, carrying `perc_min` (initially 100); a truthy
`online` returns 100 at once, otherwise each usable reading is folded in
with `min` and the final `perc_min` is truncated by `int()`. -/
def status_loop : List Device → ℚ → Int
  | [], pm => pyIntTrunc pm
  | d :: ds, pm =>
      if eligible d then
        match procDevice d with
        | DevResult.ret => 100
        | DevResult.reading q => status_loop ds (min q pm)
        | DevResult.skip => status_loop ds pm
      else status_loop ds pm

/-- The `status` function over the enumerated power-supply devices. -/
def status (ds : List Device) : Int := status_loop ds 100

/-- Extract the percentage a device contributes, if any. -/
def devReadingQ (d : Device) : Option ℚ :=
  match procDevice d with
  | DevResult.reading q => some q
  | _ => none

/-- The usable readings of the eligible devices, in scan order. -/
def readingsOf (ds : List Device) : List ℚ :=
  List.filterMap devReadingQ (List.filter (fun d => eligible d) ds)

/-- Minimum of a list of percentages against the initial `perc_min`
value 100. -/
def minList (l : List ℚ) : ℚ := List.foldr min 100 l

/-- Truthiness check for one attribute slot of `online`: the device
never returns 100 and never raises on `online` when the attribute is
missing or reads as 0. -/
def online_not_truthy (a : Attr) : Bool :=
  match a with
  | Attr.missing => true
  | Attr.val n => decide (n = 0)
  | Attr.invalid => false

/-- Well-formedness of a `full`-type attribute: absent, or a
non-negative integer. -/
def full_ok (a : Attr) : Bool :=
  match a with
  | Attr.missing => true
  | Attr.invalid => false
  | Attr.val f => decide (0 ≤ f)

/-- Well-formedness of a now/full pair: when `full` is a positive
integer, `now` is an integer with `0 ≤ now ≤ full`. -/
def pair_ok (full now : Attr) : Bool :=
  match full with
  | Attr.val f =>
      if 0 < f then
        match now with
        | Attr.val n => decide (0 ≤ n) && decide (n ≤ f)
        | _ => false
      else true
  | _ => true

/-- Hypothesis of C3 for one device: no truthy or invalid `online`,
non-negative integer capacities, and `now ≤ full` on each usable
pair. -/
def wf_device (d : Device) : Bool :=
  online_not_truthy d.online &&
  full_ok d.energy_full && full_ok d.charge_full &&
  pair_ok d.energy_full d.energy_now && pair_ok d.charge_full d.charge_now

lemma status_loop_of_ret (ds : List Device) (pm : ℚ)
    (h : ∃ d ∈ ds, eligible d = true ∧ procDevice d = DevResult.ret) :
    status_loop ds pm = 100 := by
  induction ds generalizing pm with
  | nil => simp at h
  | cons d ds ih =>
      obtain ⟨e, he, hel, hr⟩ := h
      rcases List.mem_cons.mp he with rfl | hmem
      · simp [status_loop, hel, hr]
      · by_cases hd : eligible d
        · cases hp : procDevice d with
          | ret => simp [status_loop, hd, hp]
          | reading q => simpa [status_loop, hd, hp] using ih _ ⟨e, hmem, hel, hr⟩
          | skip => simpa [status_loop, hd, hp] using ih _ ⟨e, hmem, hel, hr⟩
        · simpa [status_loop, hd] using ih _ ⟨e, hmem, hel, hr⟩

/-- C2. If at least one device that survives the HID filter exposes an
`online` attribute reading as a truthy (non-zero) integer, `status`
returns 100, whatever the attributes of every other device are. -/
theorem C2_online_short_circuit (ds : List Device) (d : Device) (n : Int)
    (hmem : d ∈ ds) (hel : eligible d = true)
    (hon : d.online = Attr.val n) (hn : n ≠ 0) :
    status ds = 100 := by
  have hret : procDevice d = DevResult.ret := by
    simp [procDevice, hon, hn]
  exact status_loop_of_ret ds 100 ⟨d, hmem, hel, hret⟩

/-- Witness for C2: a single mains device reporting `online = 1` next to
a low battery gives 100. -/
theorem C2_online_short_circuit_witness :
    status [⟨"/sys/class/power_supply/BAT0".toList,
             Attr.val 1, Attr.val 100, Attr.missing, Attr.missing, Attr.missing⟩,
            ⟨"/sys/class/power_supply/AC".toList,
             Attr.missing, Attr.missing, Attr.missing, Attr.missing, Attr.val 1⟩] = 100 :=
  C2_online_short_circuit _
    ⟨"/sys/class/power_supply/AC".toList,
     Attr.missing, Attr.missing, Attr.missing, Attr.missing, Attr.val 1⟩ 1
    (by decide) (by decide) rfl (by decide)

lemma charge_branch_ne_ret (d : Device) : charge_branch d ≠ DevResult.ret := by
  unfold charge_branch
  cases d.charge_full with
  | missing => simp
  | invalid => simp
  | val f =>
      by_cases hf : f = 0
      · simp [hf]
      · cases d.charge_now <;> simp [hf]

lemma energy_branch_ne_ret (d : Device) : energy_branch d ≠ DevResult.ret := by
  unfold energy_branch
  cases d.energy_full with
  | missing => exact charge_branch_ne_ret d
  | invalid => simp
  | val f =>
      by_cases hf : f = 0
      · simpa [hf] using charge_branch_ne_ret d
      · cases d.energy_now <;> simp [hf]

lemma online_no_ret (d : Device) (h : online_not_truthy d.online = true) :
    procDevice d ≠ DevResult.ret := by
  unfold procDevice
  cases hon : d.online with
  | missing => exact energy_branch_ne_ret d
  | invalid => simp [hon, online_not_truthy] at h
  | val n =>
      have hn : n = 0 := by simpa [online_not_truthy, hon] using h
      simpa [hn] using energy_branch_ne_ret d

lemma foldr_min_min (a b : ℚ) (l : List ℚ) :
    List.foldr min (min a b) l = min a (List.foldr min b l) := by
  induction l with
  | nil => rfl
  | cons c l ih => simp [List.foldr_cons, ih, min_left_comm]

lemma status_loop_eq_min (ds : List Device) (pm : ℚ)
    (h : ∀ d ∈ ds, eligible d = true → procDevice d ≠ DevResult.ret) :
    status_loop ds pm = pyIntTrunc (List.foldr min pm (readingsOf ds)) := by
  induction ds generalizing pm with
  | nil => simp [status_loop, readingsOf]
  | cons d ds ih =>
      have htail : ∀ e ∈ ds, eligible e = true → procDevice e ≠ DevResult.ret :=
        fun e he => h e (List.mem_cons_of_mem _ he)
      by_cases hd : eligible d
      · cases hp : procDevice d with
        | ret => exact absurd hp (h d (List.mem_cons_self d ds) hd)
        | reading q =>
            have hq : devReadingQ d = some q := by simp [devReadingQ, hp]
            have hro : readingsOf (d :: ds) = q :: readingsOf ds := by
              simp [readingsOf, List.filter_cons, hd, hq]
            rw [hro]
            simp only [status_loop, hd, hp, if_pos]
            rw [ih _ htail, List.foldr_cons, foldr_min_min]
        | skip =>
            have hq : devReadingQ d = none := by simp [devReadingQ, hp]
            have hro : readingsOf (d :: ds) = readingsOf ds := by
              simp [readingsOf, List.filter_cons, hd, hq]
            rw [hro]
            simp only [status_loop, hd, hp, if_pos]
            exact ih _ htail
      · have hro : readingsOf (d :: ds) = readingsOf ds := by
          simp [readingsOf, List.filter_cons, hd]
        rw [hro]
        simp only [status_loop, hd, if_neg, Bool.false_eq_true, not_false_iff]
        exact ih _ htail

lemma formula_bounds (f n : Int) (hf : 0 < f) (h0 : 0 ≤ n) (hn : n ≤ f) :
    0 ≤ (1 - (((f : ℚ) - (n : ℚ)) / (f : ℚ))) * 100 ∧
    (1 - (((f : ℚ) - (n : ℚ)) / (f : ℚ))) * 100 ≤ 100 := by
  have hfQ : (0 : ℚ) < (f : ℚ) := by exact_mod_cast hf
  have h0Q : (0 : ℚ) ≤ (n : ℚ) := by exact_mod_cast h0
  have hnQ : (n : ℚ) ≤ (f : ℚ) := by exact_mod_cast hn
  have h1 : ((f : ℚ) - (n : ℚ)) / (f : ℚ) ≤ 1 := by
    rw [div_le_one hfQ]; linarith
  have h2 : 0 ≤ ((f : ℚ) - (n : ℚ)) / (f : ℚ) :=
    div_nonneg (by linarith) (le_of_lt hfQ)
  constructor <;> nlinarith

lemma charge_reading_bounds (d : Device) (hcf : full_ok d.charge_full = true)
    (hcp : pair_ok d.charge_full d.charge_now = true) (q : ℚ)
    (h : charge_branch d = DevResult.reading q) : 0 ≤ q ∧ q ≤ 100 := by
  unfold charge_branch at h
  cases hf : d.charge_full with
  | missing => simp [hf] at h
  | invalid => simp [hf] at h
  | val f =>
      rw [hf] at h
      by_cases hf0 : f = 0
      · simp [hf0] at h
      · have hfpos : 0 < f := by
          have : (0 : Int) ≤ f := by simpa [full_ok, hf] using hcf
          omega
        cases hn : d.charge_now with
        | missing => simp [hf0, hn] at h
        | invalid => simp [hf0, hn] at h
        | val n =>
            rw [hn] at h
            simp only [hf0, if_neg, ite_false] at h
            have hb : 0 ≤ n ∧ n ≤ f := by
              have := hcp
              simp [pair_ok, hf, hfpos, hn, Bool.and_eq_true] at this
              exact this
            have := formula_bounds f n hfpos hb.1 hb.2
            cases h
            exact this

lemma energy_reading_bounds (d : Device)
    (hef : full_ok d.energy_full = true) (hcf : full_ok d.charge_full = true)
    (hep : pair_ok d.energy_full d.energy_now = true)
    (hcp : pair_ok d.charge_full d.charge_now = true) (q : ℚ)
    (h : energy_branch d = DevResult.reading q) : 0 ≤ q ∧ q ≤ 100 := by
  unfold energy_branch at h
  cases hf : d.energy_full with
  | missing =>
      rw [hf] at h
      exact charge_reading_bounds d hcf hcp q h
  | invalid => simp [hf] at h
  | val f =>
      rw [hf] at h
      by_cases hf0 : f = 0
      · simp only [hf0, ite_true] at h
        exact charge_reading_bounds d hcf hcp q h
      · have hfpos : 0 < f := by
          have : (0 : Int) ≤ f := by simpa [full_ok, hf] using hef
          omega
        cases hn : d.energy_now with
        | missing => simp [hf0, hn] at h
        | invalid => simp [hf0, hn] at h
        | val n =>
            rw [hn] at h
            simp only [hf0, if_neg, ite_false] at h
            have hb : 0 ≤ n ∧ n ≤ f := by
              have := hep
              simp [pair_ok, hf, hfpos, hn, Bool.and_eq_true] at this
              exact this
            have := formula_bounds f n hfpos hb.1 hb.2
            cases h
            exact this

lemma wf_reading_bounds (d : Device) (hwf : wf_device d = true) (q : ℚ)
    (h : devReadingQ d = some q) : 0 ≤ q ∧ q ≤ 100 := by
  simp only [wf_device, Bool.and_eq_true] at hwf
  obtain ⟨⟨⟨⟨hon, hef⟩, hcf⟩, hep⟩, hcp⟩ := hwf
  unfold devReadingQ at h
  cases hp : procDevice d with
  | ret => simp [hp] at h
  | skip => simp [hp] at h
  | reading r =>
      rw [hp] at h
      have hqr : r = q := by simpa using h
      subst hqr
      unfold procDevice at hp
      cases hno : d.online with
      | missing =>
          rw [hno] at hp
          exact energy_reading_bounds d hef hcf hep hcp _ hp
      | invalid => simp [hno] at hp
      | val n =>
          have hn : n = 0 := by simpa [online_not_truthy, hno] using hon
          rw [hno, hn] at hp
          simp only [ite_true] at hp
          exact energy_reading_bounds d hef hcf hep hcp _ hp

lemma minList_le_100 (l : List ℚ) : minList l ≤ 100 := by
  induction l with
  | nil => simp [minList]
  | cons q l ih => exact le_trans (min_le_right _ _) ih

lemma minList_nonneg (l : List ℚ) (h : ∀ q ∈ l, 0 ≤ q) : 0 ≤ minList l := by
  induction l with
  | nil => norm_num [minList]
  | cons q l ih =>
      exact le_min (h q (List.mem_cons_self q l))
        (ih fun r hr => h r (List.mem_cons_of_mem _ hr))

lemma pyIntTrunc_nonneg (q : ℚ) (h : 0 ≤ q) : 0 ≤ pyIntTrunc q := by
  rw [pyIntTrunc, if_neg (not_lt.mpr h)]
  exact Int.floor_nonneg.mpr h

lemma pyIntTrunc_le_100 (q : ℚ) (h0 : 0 ≤ q) (h : q ≤ 100) : pyIntTrunc q ≤ 100 := by
  rw [pyIntTrunc, if_neg (not_lt.mpr h0)]
  have := Int.floor_le_floor h
  simpa using this

/-- C3. With no device reporting mains power and every usable capacity
pair made of non-negative integers with `now ≤ full`, `status` returns
the `int()` truncation of the minimum usable reading
`(1 - (full - now)/full) * 100` across eligible devices (energy pairs
taking precedence over charge pairs per device), returns 100 when no
device yields a usable reading, and always lands in [0, 100]. -/
theorem C3_battery_aggregation (ds : List Device)
    (hwf : ∀ d ∈ ds, eligible d = true → wf_device d = true) :
    status ds = pyIntTrunc (minList (readingsOf ds)) ∧
    (readingsOf ds = [] → status ds = 100) ∧
    (0 ≤ status ds ∧ status ds ≤ 100) ∧
    (∀ d : Device, ∀ f n : Int, online_not_truthy d.online = true →
      d.energy_full = Attr.val f → 0 < f → d.energy_now = Attr.val n →
      devReadingQ d = some ((1 - (((f : ℚ) - (n : ℚ)) / (f : ℚ))) * 100)) ∧
    (∀ d : Device, ∀ f n : Int, online_not_truthy d.online = true →
      d.energy_full = Attr.missing → d.charge_full = Attr.val f → 0 < f →
      d.charge_now = Attr.val n →
      devReadingQ d = some ((1 - (((f : ℚ) - (n : ℚ)) / (f : ℚ))) * 100)) := by
  have hnr : ∀ d ∈ ds, eligible d = true → procDevice d ≠ DevResult.ret := by
    intro d hd hel
    have h := hwf d hd hel
    simp only [wf_device, Bool.and_eq_true] at h
    exact online_no_ret d h.1.1.1.1
  have hmain : status ds = pyIntTrunc (minList (readingsOf ds)) :=
    status_loop_eq_min ds 100 hnr
  have hbounds : ∀ q ∈ readingsOf ds, 0 ≤ q ∧ q ≤ 100 := by
    intro q hq
    obtain ⟨d, hdf, hdq⟩ := List.mem_filterMap.mp hq
    obtain ⟨hdm, hde⟩ := List.mem_filter.mp hdf
    exact wf_reading_bounds d (hwf d hdm hde) q hdq
  refine ⟨hmain, ?_, ?_, ?_, ?_⟩
  · intro hempty
    rw [hmain, hempty]
    norm_num [minList, pyIntTrunc]
  · constructor
    · rw [hmain]
      exact pyIntTrunc_nonneg _ (minList_nonneg _ fun q hq => (hbounds q hq).1)
    · rw [hmain]
      exact pyIntTrunc_le_100 _ (minList_nonneg _ fun q hq => (hbounds q hq).1)
        (minList_le_100 _)
  · intro d f n hon hef hf hen
    have hne : ¬ f = 0 := by omega
    have hb : energy_branch d = DevResult.reading ((1 - (((f : ℚ) - (n : ℚ)) / (f : ℚ))) * 100) := by
      unfold energy_branch
      rw [hef, hen]
      simp [hne]
    unfold devReadingQ procDevice
    cases hno : d.online with
    | missing => rw [hb]
    | invalid => simp [online_not_truthy, hno] at hon
    | val m =>
        have hm : m = 0 := by simpa [online_not_truthy, hno] using hon
        rw [hm]
        simp only [ite_true]
        rw [hb]
  · intro d f n hon hef hcf hf hcn
    have hne : ¬ f = 0 := by omega
    have hb : charge_branch d = DevResult.reading ((1 - (((f : ℚ) - (n : ℚ)) / (f : ℚ))) * 100) := by
      unfold charge_branch
      rw [hcf, hcn]
      simp [hne]
    have hbe : energy_branch d = DevResult.reading ((1 - (((f : ℚ) - (n : ℚ)) / (f : ℚ))) * 100) := by
      unfold energy_branch
      rw [hef, hb]
    unfold devReadingQ procDevice
    cases hno : d.online with
    | missing => rw [hbe]
    | invalid => simp [online_not_truthy, hno] at hon
    | val m =>
        have hm : m = 0 := by simpa [online_not_truthy, hno] using hon
        rw [hm]
        simp only [ite_true]
        rw [hbe]

/-- Witness for C3: one discharging battery at energy 1 of 2 satisfies
the well-formedness hypothesis and the conclusion holds for it. -/
theorem C3_battery_aggregation_witness :
    (∀ d ∈ [Device.mk "/sys/class/power_supply/BAT0".toList
              (Attr.val 1) (Attr.val 2) Attr.missing Attr.missing Attr.missing],
      eligible d = true → wf_device d = true) ∧
    status [Device.mk "/sys/class/power_supply/BAT0".toList
              (Attr.val 1) (Attr.val 2) Attr.missing Attr.missing Attr.missing] =
      pyIntTrunc (minList (readingsOf
        [Device.mk "/sys/class/power_supply/BAT0".toList
          (Attr.val 1) (Attr.val 2) Attr.missing Attr.missing Attr.missing])) :=
  ⟨by decide, (C3_battery_aggregation _ (by decide)).1⟩

/-! ## TDP controller (`run_raplctl` / `run_ryzenadj`)

After validation in `main` the TDP table holds one positive integer per
key. Each backend is gated on its vendor flag and tool path, skips when
`applied_tdp` already equals the requested governor, remaps the name
`conservative_x86` to `conservative`, builds its command line, and on
tool success records the (remapped) governor in `applied_tdp`; on tool
failure `applied_tdp` is left as it was. -/

/-- Validated TDP table `{boost, performance, conservative, powersave}`. -/
structure Tdps where
  boost : Int
  performance : Int
  conservative : Int
  powersave : Int
deriving DecidableEq

/-- The built-in `default_tdps` table from `main`. -/
def default_tdps : Tdps :=
  { boost := 50, performance := 900, conservative := 13, powersave := 8 }

/-- Python dict lookup `tdps[governor]` on the validated table
(`none` models a `KeyError`). -/
def tdp_lookup (t : Tdps) (g : String) : Option Int :=
  if g = "performance" then some t.performance
  else if g = "conservative" then some t.conservative
  else if g = "powersave" then some t.powersave
  else if g = "boost" then some t.boost
  else none

/-- Shared boost expression
`min(tdps[governor] * (1 + (tdps["boost"]/100)), 900)` as an exact
rational. -/
def boost_limit (t : Tdps) (base : Int) : ℚ :=
  min ((base : ℚ) * (1 + (t.boost : ℚ) / 100)) 900

/-- The `conservative_x86` alias both backends rewrite before lookup. -/
def remap_tdp_name (g : String) : String :=
  if g = "conservative_x86" then "conservative" else g

/-- Numeric payload of the raplctl invocation:
`long=int(tdps[g])`, `short=int(min(tdps[g]*(1+boost/100), 900))`,
`long_time=300` for performance else `20`. -/
def run_raplctl_command (governor : String) (t : Tdps) : Option (Int × Int × Int) :=
  let g := remap_tdp_name governor
  (tdp_lookup t g).map fun base =>
    (base, pyIntTrunc (boost_limit t base), if g = "performance" then 300 else 20)

/-- Numeric payload of the ryzenadj invocation:
`--stapm-limit=int(tdps[g]*1000)`, `--slow-limit=int(tdps[g]*1000)`,
`--fast-limit=int(min(tdps[g]*(1+boost/100), 900)) * 100`. -/
def run_ryzenadj_command (governor : String) (t : Tdps) : Option (Int × Int × Int) :=
  let g := remap_tdp_name governor
  (tdp_lookup t g).map fun base =>
    (base * 1000, base * 1000, pyIntTrunc (boost_limit t base) * 100)

/-- State transition of `run_raplctl` on the `applied_tdp` global:
`enabled` is `isi and Path(RAPLCTL_PATH).exists()`, `tool_ok` is whether
the subprocess exits zero; the returned Bool says whether the tool was
invoked at all. -/
def run_raplctl_step (enabled tool_ok : Bool) (governor : String)
    (applied : Option String) : Bool × Option String :=
  if enabled = false then (false, applied)
  else if applied = some governor then (false, applied)
  else if tool_ok then (true, some (remap_tdp_name governor)) else (true, applied)

/-- State transition of `run_ryzenadj` on the `applied_tdp` global;
identical guard structure with its own gate
`isa and Path(RYZENADJ_PATH).exists()`. -/
def run_ryzenadj_step (enabled tool_ok : Bool) (governor : String)
    (applied : Option String) : Bool × Option String :=
  if enabled = false then (false, applied)
  else if applied = some governor then (false, applied)
  else if tool_ok then (true, some (remap_tdp_name governor)) else (true, applied)

/-! ## Hardware applier (`set_governor`)

Files are modelled as (current content, writable) pairs: a write to a
writable file lands and read-back succeeds; on a non-writable file the
write or its read-back check raises, the error is caught and logged and
`altered` is not set for that path. -/

/-- One pass of a `set_governor` write loop over governor files with the
given target: returns the new file contents and whether any file value
changed. -/
def apply_files (target : String) : List (String × Bool) → List (String × Bool) × Bool
  | [] => ([], false)
  | f :: fs =>
      let rest := apply_files target fs
      if f.1 ≠ target then
        if f.2 then ((target, f.2) :: rest.1, true)
        else (f :: rest.1, rest.2)
      else (f :: rest.1, rest.2)

/-- Observable outcome of one `set_governor` call. -/
structure GovResult where
  tdp_profile : String
  cpu_target : String
  devfreq_target : String
  cpu : List (String × Bool)
  devfreq : List (String × Bool)
  altered : Bool
  ret : Unit

/-- The `set_governor` function: keeps `effective_governor` for the TDP
backends, remaps `conservative` to `powersave` for the CPU write path on
x86_64, writes each differing CPU and devfreq governor file, computes
the local `altered` flag, and returns `None`. -/
def set_governor (isx : Bool) (governor : String)
    (cpu devfreq : List (String × Bool)) : GovResult :=
  let effective_governor := governor
  let g := if isx && governor = "conservative" then "powersave" else governor
  let c := apply_files g cpu
  let dg := if g = "conservative" then "powersave" else g
  let d := apply_files dg devfreq
  { tdp_profile := effective_governor, cpu_target := g, devfreq_target := dg,
    cpu := c.1, devfreq := d.1, altered := c.2 || d.2, ret := () }

/-- C4. On x86_64 a requested `conservative` governor is written to the
CPU scaling_governor files as the remapped string `powersave`, while the
TDP backend receives the profile name `conservative` and its raplctl
wattage is the table entry `tdp["conservative"]`, distinct from
`tdp["powersave"]` (defaults 13 vs 8). -/
theorem C4_conservative_remap :
    (∀ t : Tdps, ∀ cpu devfreq : List (String × Bool),
      (set_governor true "conservative" cpu devfreq).cpu_target = "powersave" ∧
      (set_governor true "conservative" cpu devfreq).cpu = (apply_files "powersave" cpu).1 ∧
      (set_governor true "conservative" cpu devfreq).tdp_profile = "conservative" ∧
      run_raplctl_command "conservative" t =
        some (t.conservative, pyIntTrunc (boost_limit t t.conservative), 20)) ∧
    default_tdps.conservative = 13 ∧ default_tdps.powersave = 8 ∧
    default_tdps.conservative ≠ default_tdps.powersave := by
  refine ⟨fun t cpu devfreq => ⟨rfl, rfl, rfl, ?_⟩, rfl, rfl, by decide⟩
  simp [run_raplctl_command, remap_tdp_name, tdp_lookup]

/-! ## Config watcher (`load_config`) and raw configuration values

Raw JSON values as read from `/etc/govctl/config.json`. -/

/-- A JSON scalar as it can appear in the configuration document. -/
inductive JVal where
  | jnum : Int → JVal
  | jstr : String → JVal
  | jbool : Bool → JVal
  | jnull : JVal
deriving DecidableEq

/-- The raw parsed configuration document, one optional entry per key
that `main` reads. -/
structure RawConfig where
  governor : Option JVal
  governor_battery : Option JVal
  detect_battery_state : Option JVal
  powersave_point : Option JVal
  tdp : Option (List (String × JVal))
deriving DecidableEq

/-- The daemon globals touched by `load_config`. -/
structure DaemonState where
  current_config : Option RawConfig
  last_config_mtime : Int
  force_show : Bool
  applied_tdp : Option String
deriving DecidableEq

/-- The `load_config` function: no change when the file is absent or its
mtime equals the last observed one; on a parse failure the exception is
caught and every global is left unchanged; on success the new snapshot
is stored, `force_show` is set and `applied_tdp` is reset to `None`. -/
def load_config (cfg_exists : Bool) (mtime : Int) (parsed : Option RawConfig)
    (s : DaemonState) : DaemonState :=
  if cfg_exists = false then s
  else if mtime = s.last_config_mtime then s
  else
    match parsed with
    | none => s
    | some c =>
        { current_config := some c, last_config_mtime := mtime,
          force_show := true, applied_tdp := none }

/-- C7. Both TDP backends return without invoking the external tool
whenever the requested profile equals the last-applied one, and a
successful configuration reload clears the last-applied marker so that
the very next application invokes the tool (when its gate is enabled)
even for an unchanged profile. -/
theorem C7_tdp_skip_and_reload_force :
    (∀ e t : Bool, ∀ g : String,
      (run_raplctl_step e t g (some g)).1 = false ∧
      (run_raplctl_step e t g (some g)).2 = some g ∧
      (run_ryzenadj_step e t g (some g)).1 = false ∧
      (run_ryzenadj_step e t g (some g)).2 = some g) ∧
    (∀ s : DaemonState, ∀ mtime : Int, ∀ c : RawConfig,
      mtime ≠ s.last_config_mtime →
      (load_config true mtime (some c) s).applied_tdp = none ∧
      (∀ t : Bool, ∀ g : String,
        (run_raplctl_step true t g (load_config true mtime (some c) s).applied_tdp).1 = true ∧
        (run_ryzenadj_step true t g (load_config true mtime (some c) s).applied_tdp).1 = true)) := by
  constructor
  · intro e t g
    cases e <;> simp [run_raplctl_step, run_ryzenadj_step]
  · intro s mtime c h
    have hload : (load_config true mtime (some c) s).applied_tdp = none := by
      simp [load_config, h]
    refine ⟨hload, fun t g => ?_⟩
    rw [hload]
    cases t <;> simp [run_raplctl_step, run_ryzenadj_step]

/-- Witness for C7: reloading at a fresh mtime clears the marker and the
next raplctl application is invoked even for the same profile. -/
theorem C7_tdp_skip_and_reload_force_witness :
    ((1 : Int) ≠ (DaemonState.mk none 0 true (some "performance")).last_config_mtime) ∧
    (load_config true 1 (some (RawConfig.mk none none none none none))
      (DaemonState.mk none 0 true (some "performance"))).applied_tdp = none ∧
    (run_raplctl_step true true "performance"
      (load_config true 1 (some (RawConfig.mk none none none none none))
        (DaemonState.mk none 0 true (some "performance"))).applied_tdp).1 = true :=
  ⟨by decide,
   (C7_tdp_skip_and_reload_force.2 (DaemonState.mk none 0 true (some "performance")) 1
     (RawConfig.mk none none none none none) (by decide)).1,
   ((C7_tdp_skip_and_reload_force.2 (DaemonState.mk none 0 true (some "performance")) 1
     (RawConfig.mk none none none none none) (by decide)).2 true "performance").1⟩

/-- C10. When the external TDP tool exits non-zero, `applied_tdp` is
left unchanged rather than set to the attempted profile, so a subsequent
call with the same profile invokes the tool again instead of skipping. -/
theorem C10_failed_tool_no_marker (g : String) (s : Option String)
    (h : s ≠ some g) :
    run_raplctl_step true false g s = (true, s) ∧
    (∀ t2 : Bool, (run_raplctl_step true t2 g (run_raplctl_step true false g s).2).1 = true) ∧
    run_ryzenadj_step true false g s = (true, s) ∧
    (∀ t2 : Bool, (run_ryzenadj_step true t2 g (run_ryzenadj_step true false g s).2).1 = true) := by
  have h1 : run_raplctl_step true false g s = (true, s) := by
    simp [run_raplctl_step, h]
  have h2 : run_ryzenadj_step true false g s = (true, s) := by
    simp [run_ryzenadj_step, h]
  refine ⟨h1, fun t2 => ?_, h2, fun t2 => ?_⟩
  · rw [h1]
    cases t2 <;> simp [run_raplctl_step, h]
  · rw [h2]
    cases t2 <;> simp [run_ryzenadj_step, h]

/-- Witness for C10: a failed invocation for `performance` from a clean
marker leaves the marker clean and the retry is invoked. -/
theorem C10_failed_tool_no_marker_witness :
    ((none : Option String) ≠ some "performance") ∧
    run_raplctl_step true false "performance" none = (true, none) ∧
    (run_raplctl_step true true "performance"
      (run_raplctl_step true false "performance" none).2).1 = true :=
  ⟨by decide,
   (C10_failed_tool_no_marker "performance" none (by decide)).1,
   (C10_failed_tool_no_marker "performance" none (by decide)).2.1 true⟩

lemma apply_files_snd_iff (t : String) (l : List (String × Bool)) :
    (apply_files t l).2 = true ↔ ∃ f ∈ l, f.1 ≠ t ∧ f.2 = true := by
  induction l with
  | nil => simp [apply_files]
  | cons f fs ih =>
      by_cases hne : f.1 ≠ t
      · by_cases hw : f.2
        · simp [apply_files, hne, hw]
        · simp only [apply_files, if_pos hne, if_neg hw]
          rw [ih]
          constructor
          · rintro ⟨e, he, hp⟩
            exact ⟨e, List.mem_cons_of_mem _ he, hp⟩
          · rintro ⟨e, he, hp⟩
            rcases List.mem_cons.mp he with rfl | hmem
            · exact absurd hp.2 (by simpa using hw)
            · exact ⟨e, hmem, hp⟩
      · simp only [apply_files, if_neg hne]
        rw [ih]
        constructor
        · rintro ⟨e, he, hp⟩
          exact ⟨e, List.mem_cons_of_mem _ he, hp⟩
        · rintro ⟨e, he, hp⟩
          rcases List.mem_cons.mp he with rfl | hmem
          · exact absurd hp.1 (by simpa using hne)
          · exact ⟨e, hmem, hp⟩

/-- C9 (amended). `set_governor` computes a local `altered` flag that is
true exactly when at least one CPU or devfreq governor file value was
actually changed (written and verified); the function itself returns
`None`, so the flag is observable only through the logging it gates, not
through the return value. -/
theorem C9_altered_flag (isx : Bool) (g : String)
    (cpu devfreq : List (String × Bool)) :
    (set_governor isx g cpu devfreq).ret = () ∧
    ((set_governor isx g cpu devfreq).altered = true ↔
      (∃ f ∈ cpu, f.1 ≠ (set_governor isx g cpu devfreq).cpu_target ∧ f.2 = true) ∨
      (∃ f ∈ devfreq, f.1 ≠ (set_governor isx g cpu devfreq).devfreq_target ∧ f.2 = true)) := by
  refine ⟨rfl, ?_⟩
  show ((apply_files _ cpu).2 || (apply_files _ devfreq).2) = true ↔ _
  rw [Bool.or_eq_true, apply_files_snd_iff, apply_files_snd_iff]
  rfl

/-- Counterexample for C9 as stated: the Python return value (`None`,
embedded as `Unit`) is identical for a no-op cycle and for a cycle that
changed a file, so `set_governor` does not report to its caller whether
anything changed; only the internal flag differs. -/
theorem C9_return_counterexample :
    (set_governor false "performance" [("performance", true)] []).altered = false ∧
    (set_governor false "performance" [("powersave", true)] []).altered = true ∧
    (set_governor false "performance" [("performance", true)] []).ret =
      (set_governor false "performance" [("powersave", true)] []).ret :=
  ⟨by decide, by decide, rfl⟩

/-! ## Power-limit uncap (`disable_mmio_limits`)

The decision on the two 32-bit halves of the MMIO RAPL limit register,
with `INTEL_PL1_ENABLE_BITS_LOW = INTEL_PL2_ENABLE_BITS_HIGH = 0x8000`
and the lock bit `0x80000000` in the high half. -/

/-- Observable outcome of the MMIO uncap step on one register value. -/
inductive MmioOutcome where
  | noop : MmioOutcome
  | fail : MmioOutcome
  | zeroed : MmioOutcome
deriving DecidableEq

/-- Decision logic of `disable_mmio_limits` on the two register halves:
return early when both are zero; when the lock bit is set, raise iff a
limit-enable bit is active (and otherwise do nothing); only when not
locked are both halves zeroed. -/
def disable_mmio_step (low high : Nat) : MmioOutcome :=
  if low = 0 ∧ high = 0 then MmioOutcome.noop
  else if high &&& 0x80000000 ≠ 0 then
    if low &&& 0x8000 ≠ 0 ∨ high &&& 0x8000 ≠ 0 then MmioOutcome.fail
    else MmioOutcome.noop
  else MmioOutcome.zeroed

/-- Modelled from the spec: the claimed behaviour of the MMIO uncap step
(C6) — nothing when both halves are zero, failure when locked with an
enable bit active, and otherwise zero both halves. -/
def mmio_claimed (low high : Nat) : MmioOutcome :=
  if low = 0 ∧ high = 0 then MmioOutcome.noop
  else if high &&& 0x80000000 ≠ 0 ∧ (low &&& 0x8000 ≠ 0 ∨ high &&& 0x8000 ≠ 0) then
    MmioOutcome.fail
  else MmioOutcome.zeroed

/-- Counterexample for C6: with `low = 0` and `high = 0x80000000` (lock
bit set, both enable bits clear, register not all-zero) the code
performs no write at all, while the claim requires both halves to be
zeroed. -/
theorem C6_counterexample :
    disable_mmio_step 0 0x80000000 = MmioOutcome.noop ∧
    mmio_claimed 0 0x80000000 = MmioOutcome.zeroed ∧
    disable_mmio_step 0 0x80000000 ≠ mmio_claimed 0 0x80000000 := by
  refine ⟨by decide, by decide, by decide⟩

/-- C6 (amended). The MMIO uncap step writes zeros exactly when the
register is not already all-zero and the lock bit is clear; it fails
exactly when locked with an enable bit active; and it performs no write
and no error when the register is all-zero or when it is locked with
both enable bits clear. -/
theorem C6_mmio_uncap (low high : Nat) :
    (disable_mmio_step low high = MmioOutcome.zeroed ↔
      ¬(low = 0 ∧ high = 0) ∧ high &&& 0x80000000 = 0) ∧
    (disable_mmio_step low high = MmioOutcome.fail ↔
      ¬(low = 0 ∧ high = 0) ∧ high &&& 0x80000000 ≠ 0 ∧
        (low &&& 0x8000 ≠ 0 ∨ high &&& 0x8000 ≠ 0)) ∧
    (disable_mmio_step low high = MmioOutcome.noop ↔
      (low = 0 ∧ high = 0) ∨
      (high &&& 0x80000000 ≠ 0 ∧ low &&& 0x8000 = 0 ∧ high &&& 0x8000 = 0)) := by
  unfold disable_mmio_step
  split_ifs with h1 h2 h3
  · obtain ⟨hl, hh⟩ := h1
    subst hl; subst hh
    simp
  · simp only [reduceCtorEq, false_iff, iff_true, true_iff]
    refine ⟨fun h => absurd h.2 (by simpa using h2), ⟨h1, h2, h3⟩, fun h => ?_⟩
    rcases h with h | h
    · exact h1 h
    · rcases h3 with h3 | h3
      · exact absurd h.2.1 (by simpa using h3)
      · exact absurd h.2.2 (by simpa using h3)
  · simp only [reduceCtorEq, false_iff, iff_true, true_iff]
    push_neg at h3
    refine ⟨fun h => absurd h.2 (by simpa using h2), fun h => ?_, Or.inr ⟨h2, h3.1, h3.2⟩⟩
    rcases h.2.2 with hc | hc
    · exact hc h3.1
    · exact hc h3.2
  · simp only [reduceCtorEq, false_iff, iff_true, true_iff]
    refine ⟨⟨h1, by simpa using h2⟩, fun h => ?_, fun h => ?_⟩
    · exact absurd h.2.1 (by simpa using h2)
    · rcases h with h | h
      · exact h1 h
      · exact absurd h.1 (by simpa using h2)

/-! ## TDP units (C5) -/

/-- C5 decided at the default table and profile `conservative`: both
backends derive the boost wattage `min(13 * 1.5, 900) = 19.5`, truncated
to 19 by `int()`; raplctl receives watts `(long, short) = (13, 19)`, but
ryzenadj receives `--stapm-limit = --slow-limit = 13000` milliwatts
while `--fast-limit` is the truncated boost wattage multiplied by 100,
i.e. 1900, not the 19000 that the milliwatt unit (× 1000) demands. -/
theorem C5_ryzenadj_fast_limit_units :
    run_raplctl_command "conservative" default_tdps = some (13, 19, 20) ∧
    run_ryzenadj_command "conservative" default_tdps = some (13000, 13000, 1900) ∧
    (1900 : Int) = 19 * 100 ∧ (1900 : Int) ≠ 19 * 1000 := by
  have hb : boost_limit default_tdps 13 = 39 / 2 := by
    rw [boost_limit]
    rw [show ((13 : Int) : ℚ) * (1 + ((default_tdps.boost : Int) : ℚ) / 100) = 39 / 2 by
      norm_num [default_tdps]]
    exact min_eq_left (by norm_num)
  have ht : pyIntTrunc (boost_limit default_tdps 13) = 19 := by
    rw [hb, pyIntTrunc, if_neg (by norm_num)]
    norm_num
  have h1 : run_raplctl_command "conservative" default_tdps =
      some (13, pyIntTrunc (boost_limit default_tdps 13), 20) := rfl
  have h2 : run_ryzenadj_command "conservative" default_tdps =
      some (13 * 1000, 13 * 1000, pyIntTrunc (boost_limit default_tdps 13) * 100) := rfl
  refine ⟨?_, ?_, by norm_num, by norm_num⟩
  · rw [h1, ht]
  · rw [h2, ht]
    norm_num

/-! ## Config value validation (C8)

`main` validates only the TDP table per key (`int(value)`, positive,
else the per-key default); `governor` and `powersave_point` are read
with `dict.get` defaults that apply only when the key is absent. -/

/-- Decimal digit run accepted by Python `int()` on a string. -/
def digitsVal (cs : List Char) : Option Nat :=
  if cs = [] then none
  else if cs.all Char.isDigit then
    some (cs.foldl (fun a c => a * 10 + (c.toNat - 48)) 0)
  else none

/-- Python `int()` on a string, for the plain decimal forms that occur
in a configuration document: an optional minus sign followed by digits;
anything else raises `ValueError` (`none`). -/
def py_str_to_int (s : String) : Option Int :=
  match s.toList with
  | [] => none
  | c :: rest =>
      if c = Char.ofNat 45 then (digitsVal rest).map fun n => -(n : Int)
      else (digitsVal (c :: rest)).map fun n => (n : Int)

/-- Python `int(value)` on a JSON scalar: numbers pass through, booleans
coerce to 0/1, strings are parsed, `None` raises `TypeError`. -/
def pyInt (v : JVal) : Option Int :=
  match v with
  | JVal.jnum n => some n
  | JVal.jbool b => some (if b then 1 else 0)
  | JVal.jstr s => py_str_to_int s
  | JVal.jnull => none

/-- Per-key TDP validation from `main`: `value = tdps.get(key, default)`,
`int_value = int(value)`, non-positive or unparseable values raise and
are replaced by the default. -/
def validate_key (l : List (String × JVal)) (k : String) (d : Int) : Int :=
  match List.lookup k l with
  | none => d
  | some v =>
      match pyInt v with
      | some i => if i ≤ 0 then d else i
      | none => d

/-- The validated TDP table built in `main` (`tdps` absent means the
whole default table). -/
def resolve_tdps (raw : Option (List (String × JVal))) : Tdps :=
  match raw with
  | none => default_tdps
  | some l =>
      { boost := validate_key l "boost" 50,
        performance := validate_key l "performance" 900,
        conservative := validate_key l "conservative" 13,
        powersave := validate_key l "powersave" 8 }

/-- `desired_governor = current_config.get("governor", "performance")`:
a plain lookup-with-default, no validation of a present value. -/
def config_governor (c : RawConfig) : JVal :=
  c.governor.getD (JVal.jstr "performance")

/-- `powersave_point = max(min(cfg.get("powersave_point", 20), 80), 0)`:
numbers (and booleans, which Python compares as integers) are clamped;
any other present value makes `min` raise `TypeError` (`none`), which
nothing in `main` catches. -/
def compute_powersave_point (c : RawConfig) : Option Int :=
  match c.powersave_point with
  | none => some (clamp_psp 20)
  | some (JVal.jnum n) => some (clamp_psp n)
  | some (JVal.jbool b) => some (clamp_psp (if b then 1 else 0))
  | some (JVal.jstr _) => none
  | some JVal.jnull => none

lemma validate_key_pos (l : List (String × JVal)) (k : String) (d : Int)
    (hd : 0 < d) : 0 < validate_key l k d := by
  cases hv : List.lookup k l with
  | none =>
      simp only [validate_key, hv]
      exact hd
  | some v =>
      cases hpi : pyInt v with
      | none =>
          simp only [validate_key, hv, hpi]
          exact hd
      | some i =>
          simp only [validate_key, hv, hpi]
          by_cases hi : i ≤ 0
          · rw [if_pos hi]; exact hd
          · rw [if_neg hi]; omega

/-- C8 (amended). Each TDP key that is missing, non-numeric or
non-positive individually falls back to its per-key default while
validly configured keys are kept, and every validated entry is positive;
but `governor` and `powersave_point` are defaulted only when absent: a
present governor value — valid or not — is passed through unchanged, and
a present non-numeric `powersave_point` raises instead of falling back
to its default. -/
theorem C8_config_defaulting :
    (∀ l : List (String × JVal),
      (0 < (resolve_tdps (some l)).boost ∧ 0 < (resolve_tdps (some l)).performance ∧
       0 < (resolve_tdps (some l)).conservative ∧ 0 < (resolve_tdps (some l)).powersave) ∧
      (∀ i : Int, List.lookup "performance" l = some (JVal.jnum i) →
        (resolve_tdps (some l)).performance = if i ≤ 0 then 900 else i) ∧
      (List.lookup "performance" l = none → (resolve_tdps (some l)).performance = 900) ∧
      (∀ i : Int, List.lookup "conservative" l = some (JVal.jnum i) → 0 < i →
        (resolve_tdps (some l)).conservative = i)) ∧
    (∀ c : RawConfig, ∀ v : JVal, c.governor = some v → config_governor c = v) ∧
    (∀ c : RawConfig, c.governor = none → config_governor c = JVal.jstr "performance") ∧
    (∀ c : RawConfig, ∀ n : Int, c.powersave_point = some (JVal.jnum n) →
      compute_powersave_point c = some (clamp_psp n)) ∧
    (∀ c : RawConfig, ∀ s : String, c.powersave_point = some (JVal.jstr s) →
      compute_powersave_point c = none) := by
  refine ⟨fun l => ⟨⟨?_, ?_, ?_, ?_⟩, ?_, ?_, ?_⟩, ?_, ?_, ?_, ?_⟩
  · exact validate_key_pos l _ 50 (by norm_num)
  · exact validate_key_pos l _ 900 (by norm_num)
  · exact validate_key_pos l _ 13 (by norm_num)
  · exact validate_key_pos l _ 8 (by norm_num)
  · intro i hl
    show validate_key l "performance" 900 = _
    rw [validate_key, hl]
    rfl
  · intro hl
    show validate_key l "performance" 900 = 900
    rw [validate_key, hl]
  · intro i hl hi
    show validate_key l "conservative" 13 = i
    rw [validate_key, hl]
    simp [pyInt, not_le.mpr hi, le_of_lt hi]
  · intro c v h
    rw [config_governor, h]
    rfl
  · intro c h
    rw [config_governor, h]
    rfl
  · intro c n h
    rw [compute_powersave_point, h]
  · intro c s h
    rw [compute_powersave_point, h]

/-- Witness for C8 (amended) at the spec example `{performance: -5}`
extended with a valid `conservative: 21`: performance is defaulted to
900 and conservative is kept. -/
theorem C8_config_defaulting_witness :
    List.lookup "performance"
      [("performance", JVal.jnum (-5)), ("conservative", JVal.jnum 21)] =
      some (JVal.jnum (-5)) ∧
    ((resolve_tdps (some [("performance", JVal.jnum (-5)), ("conservative", JVal.jnum 21)])).performance =
      if (-5 : Int) ≤ 0 then 900 else -5) ∧
    (resolve_tdps (some [("performance", JVal.jnum (-5)), ("conservative", JVal.jnum 21)])).conservative = 21 :=
  ⟨by decide,
   (C8_config_defaulting.1 _).2.1 (-5) (by decide),
   (C8_config_defaulting.1 _).2.2.2 21 (by decide) (by decide)⟩

/-- Counterexample for C8 as stated: a present but invalid governor
string `"schedutil"` is not replaced by the default `"performance"`, it
is passed through to the applier; and a present non-numeric
`powersave_point` does not fall back to its default — the `min`
comparison raises. -/
theorem C8_counterexample :
    config_governor (RawConfig.mk (some (JVal.jstr "schedutil")) none none none none) =
      JVal.jstr "schedutil" ∧
    JVal.jstr "schedutil" ≠ JVal.jstr "performance" ∧
    compute_powersave_point (RawConfig.mk none none none (some (JVal.jstr "twenty")) none) =
      none :=
  ⟨rfl, by decide, rfl⟩

end Govctl
